import Mathlib

/-!
Shallow embedding, in Lean 4, of the knowledge-fragment economy of the
moltmud repository, together with theorems settling the frozen claims
about it.

Sources embedded:
  - src/fragment_freshness.py  (FreshnessCalculator, FreshnessService)
  - src/knowledge_system.py    (Rarity taxonomy, get_random_rarity)
  - src/MOLTMUD_SERVER.py      (Database._init_schema, purchase_fragment,
                                rate_fragment)

Conventions of the embedding:
  - Python floats are modelled as rationals (ℚ); SQL INTEGER columns as Int;
    ids as Nat.
  - `datetime` values are modelled as rational timestamps counted in seconds
    (so `timedelta.total_seconds() / 3600` becomes `(now - last) / 3600`).
  - Nullable columns are `Option` fields.
  - A sqlite statement that cannot be prepared (a bare identifier in the
    statement that names no column of any table in scope, a missing
    column in a SET list, too few bindings for the placeholders) raises a
    Python exception at `cursor.execute` time, before any row is touched;
    methods whose bodies execute such statements are therefore modelled in
    `Except PyError`.  The column lists of the schema are transcribed from
    `Database._init_schema` and from what the repository's migrations can
    actually add (the `_ensure_schema` migration itself crashes partway,
    see `ensure_schema`), so that name resolution is checked inside the
    model rather than asserted.
-/

/-- Python / sqlite3 exception kinds raised by the embedded methods. -/
inductive PyError where
  | operationalError (msg : String)
  | programmingError (msg : String)
  | attributeError (msg : String)
  | integrityError (msg : String)
deriving Repr, DecidableEq

/-- Columns of the `agents` table as created by `Database._init_schema`
(src/MOLTMUD_SERVER.py lines 41-53).  No migration in the repository adds
further columns to it; in particular there is no `influence_earned`. -/
def agentsColumns : List String :=
  ["id", "agent_id", "name", "bio", "emoji", "influence",
   "reputation_score", "is_active", "created_at"]

/-- Columns of the `knowledge_fragments` table as created by
`Database._init_schema` (src/MOLTMUD_SERVER.py lines 76-91). -/
def knowledgeFragmentsBaseColumns : List String :=
  ["id", "agent_id", "room_id", "content", "topics", "base_value",
   "current_value", "purchase_count", "total_value_earned", "rating_sum",
   "rating_count", "created_at", "last_purchased_at"]

/-- Columns of the `fragment_purchases` table as created by
`Database._init_schema` (lines 92-103).  No migration adds columns to it;
in particular there is no `rated_at`. -/
def fragmentPurchasesColumns : List String :=
  ["id", "fragment_id", "buyer_id", "seller_id", "influence_amount",
   "fragment_value_at_purchase", "rating", "purchased_at"]

/-- Prepare-time name resolution of a sqlite statement: every bare
identifier appearing in the statement must name a column of a table in
scope, otherwise `cursor.execute` raises
`sqlite3.OperationalError: no such column: <ident>` before any row is
read or written. -/
def resolveColumns (idents scope : List String) : Except PyError Unit :=
  match idents.find? (fun c => !scope.contains c) with
  | some c => .error (.operationalError ("no such column: " ++ c))
  | none => .ok ()

/-- `FreshnessService._ensure_schema` (src/fragment_freshness.py lines
139-169): three guarded `ALTER TABLE knowledge_fragments ADD COLUMN`
statements run in order against the current column set.
`ADD COLUMN freshness_score REAL DEFAULT 1.0` and
`ADD COLUMN last_decay_check TIMESTAMP DEFAULT CURRENT_TIMESTAMP` both
prepare and execute (sqlite accepts these defaults in `ADD COLUMN`;
verified against sqlite 3.40), so those two columns are added when
missing.  The third statement passes its default as a bound parameter —
`ADD COLUMN decay_rate_per_hour REAL DEFAULT ?` — and a parameter marker
is not valid inside a DDL `DEFAULT` clause, so preparing it raises
`OperationalError: near "?": syntax error` (also verified).  No other
code in the repository ever creates `decay_rate_per_hour`, so the guard
`if decay_rate_per_hour not in columns` never skips the broken statement:
`FreshnessService.__init__`, which calls this, raises on every
construction, leaving at most the first two columns added. -/
def ensure_schema (columns : List String) : Except PyError (List String) :=
  let columns1 := if columns.contains "freshness_score" then columns
    else columns ++ ["freshness_score"]
  let columns2 := if columns1.contains "last_decay_check" then columns1
    else columns1 ++ ["last_decay_check"]
  if columns2.contains "decay_rate_per_hour" then
    .ok columns2
  else
    .error (.operationalError "near \"?\": syntax error")

/-- The largest `knowledge_fragments` column set reachable by running the
repository's code: the base schema, the category/rarity migration of
src/fragment_migration.py (whose two `ADD COLUMN` statements carry
constant defaults and succeed), and the two columns `ensure_schema`
manages to add before raising.  `decay_rate_per_hour` belongs to no
reachable state. -/
def reachableKnowledgeFragmentsColumns : List String :=
  knowledgeFragmentsBaseColumns ++
    ["category", "rarity", "freshness_score", "last_decay_check"]

/-- A row of the `agents` table (the columns the embedded methods read). -/
structure AgentRow where
  id : Nat
  influence : Int
deriving Repr, DecidableEq

/-- A row of the `knowledge_fragments` table (the columns the embedded
methods read or write).  The three freshness columns are nullable because
they are added by migration with defaults and may be NULL on legacy rows;
the freshness code guards every read of them. -/
structure FragmentRow where
  id : Nat
  agent_id : Nat
  room_id : Nat
  content : String
  base_value : Int
  current_value : Int
  purchase_count : Int
  total_value_earned : Int
  rating_sum : Int
  rating_count : Int
  freshness_score : Option ℚ
  last_decay_check : Option ℚ
  decay_rate_per_hour : Option ℚ
  last_purchased_at : Option ℚ
deriving Repr, DecidableEq

/-- A row of the `fragment_purchases` ledger table. -/
structure PurchaseRow where
  fragment_id : Nat
  buyer_id : Nat
  seller_id : Nat
  influence_amount : Int
  fragment_value_at_purchase : Int
  rating : Option Int
deriving Repr, DecidableEq

/-- The persisted state shared by all operations: the three tables of the
fragment economy. -/
structure DB where
  agents : List AgentRow
  fragments : List FragmentRow
  purchases : List PurchaseRow
deriving Repr, DecidableEq

/-- `FreshnessConfig.DEFAULT_DECAY_RATE_PER_HOUR = 0.05`
(src/fragment_freshness.py line 22). -/
def DEFAULT_DECAY_RATE_PER_HOUR : ℚ := 1/20

/-- `FreshnessCalculator.calculate_current_freshness`
(src/fragment_freshness.py lines 36-58): if the current score is already
`≤ 0` the result is `0`; otherwise the elapsed hours times the decay rate
are subtracted and the result is clamped into `[0, 1]`.  Timestamps are in
seconds, so `total_seconds() / 3600` is `(current_time - last_check) / 3600`. -/
def calculate_current_freshness
    (last_check current_time decay_rate_per_hour current_score : ℚ) : ℚ :=
  if current_score ≤ 0 then 0
  else
    let hours_elapsed := (current_time - last_check) / 3600
    let decay_amount := hours_elapsed * decay_rate_per_hour
    let new_score := current_score - decay_amount
    max 0 (min 1 new_score)

/-- The per-row score recomputation shared verbatim by
`FreshnessService.apply_decay` and
`FreshnessService.batch_update_freshness` (src/fragment_freshness.py lines
196-209 and 290-300): a NULL watermark falls back to `now` (a `datetime`
is always truthy, so `last_check_str or current_time` is `getD now`), a
NULL or zero decay rate falls back to the default (Python `or`: `0.0` is
falsy), a NULL score falls back to `1.0` (`is not None` check). -/
def decayedScore (now : ℚ) (f : FragmentRow) : ℚ :=
  let last_check := f.last_decay_check.getD now
  let rate := match f.decay_rate_per_hour with
    | some r => if r = 0 then DEFAULT_DECAY_RATE_PER_HOUR else r
    | none => DEFAULT_DECAY_RATE_PER_HOUR
  let score := f.freshness_score.getD 1
  calculate_current_freshness last_check now rate score

/-- `FreshnessService.apply_decay` (src/fragment_freshness.py lines
171-222).  Its first statement, `SELECT id, freshness_score,
last_decay_check, decay_rate_per_hour FROM knowledge_fragments WHERE
id = ?`, names `decay_rate_per_hour`, so against every reachable schema
it raises `OperationalError` at prepare time, before the WHERE clause or
the row's existence matters; the method is modelled against an explicit
column set `columns` so that this resolution is checked inside the model.
Past that statement the transcription continues: `None` if the row is
absent; otherwise recompute the score and persist `(new_score, now)` as
the new watermark.  The returned dict's `freshness_percent` / `state` /
`visual` entries are pure presentation derived from the same returned
score and are not separately modelled. -/
def apply_decay (columns : List String) (db : DB) (now : ℚ)
    (fragment_id : Nat) : Except PyError (Option (DB × ℚ)) := do
  resolveColumns
    ["id", "freshness_score", "last_decay_check", "decay_rate_per_hour"]
    columns
  match db.fragments.find? (fun f => f.id == fragment_id) with
  | none => pure none
  | some f =>
    let new_score := decayedScore now f
    let db1 : DB := { db with
      fragments := db.fragments.map (fun g =>
        if g.id == fragment_id then
          { g with freshness_score := some new_score,
                   last_decay_check := some now }
        else g) }
    pure (some (db1, new_score))

/-- `FreshnessService.get_fragment_with_freshness`
(src/fragment_freshness.py lines 224-246): apply lazy decay first
(propagating its exception; `None` if the fragment is absent), then
re-select the full row joined with its owning agent (`None` if that join
finds no row; its identifiers `kf.*` and `a.name AS agent_name` are all
qualified and resolve). -/
def get_fragment_with_freshness (columns : List String) (db : DB)
    (now : ℚ) (fragment_id : Nat) :
    Except PyError (Option (DB × FragmentRow × ℚ)) := do
  let decayed ← apply_decay columns db now fragment_id
  match decayed with
  | none => pure none
  | some (db1, score) =>
    match db1.fragments.find? (fun f => f.id == fragment_id) with
    | none => pure none
    | some f =>
      match db1.agents.find? (fun a => a.id == f.agent_id) with
      | none => pure none
      | some _ => pure (some (db1, f, score))

/-- `FreshnessService.refresh_fragment` (src/fragment_freshness.py lines
248-264): `UPDATE knowledge_fragments SET freshness_score = MIN(1.0, ?),
last_decay_check = ? WHERE id = ?`; returns `cursor.rowcount > 0`.  Both
SET targets exist in the reachable schema, so this statement prepares;
note the SQL applies only the upper bound `MIN(1.0, ·)` — there is no
lower clamp on `refresh_amount`.  (The method is still unreachable in the
running program: the service constructor raises in `ensure_schema` before
any instance exists.) -/
def refresh_fragment (columns : List String) (db : DB) (now : ℚ)
    (fragment_id : Nat) (refresh_amount : ℚ) :
    Except PyError (DB × Bool) := do
  resolveColumns ["freshness_score", "last_decay_check"] columns
  let db1 : DB := { db with
    fragments := db.fragments.map (fun g =>
      if g.id == fragment_id then
        { g with freshness_score := some (min 1 refresh_amount),
                 last_decay_check := some now }
      else g) }
  pure (db1, db.fragments.any (fun g => g.id == fragment_id))

/-- Row-selection predicate of the batch job
(`WHERE freshness_score > 0 OR freshness_score IS NULL`,
src/fragment_freshness.py lines 274-278). -/
def rowNeedsUpdate (f : FragmentRow) : Bool :=
  match f.freshness_score with
  | none => true
  | some s => decide (0 < s)

/-- `FreshnessService.batch_update_freshness` (src/fragment_freshness.py
lines 266-317).  Its selection `SELECT id, freshness_score,
last_decay_check, decay_rate_per_hour FROM knowledge_fragments WHERE
freshness_score > 0 OR freshness_score IS NULL` names
`decay_rate_per_hour` and so raises at prepare time against every
reachable schema, like `apply_decay`.  Past it, the transcription:
recompute and persist the score of every selected row at the single
timestamp `now`, returning the counts `(updated, fully_decayed)`. -/
def batch_update_freshness (columns : List String) (db : DB) (now : ℚ) :
    Except PyError (DB × Nat × Nat) := do
  resolveColumns
    ["id", "freshness_score", "last_decay_check", "decay_rate_per_hour"]
    columns
  let rows := db.fragments.filter rowNeedsUpdate
  let db1 : DB := { db with
    fragments := db.fragments.map (fun f =>
      if rowNeedsUpdate f then
        { f with freshness_score := some (decayedScore now f),
                 last_decay_check := some now }
      else f) }
  pure (db1, rows.length,
    (rows.filter (fun f => decayedScore now f ≤ 0)).length)

/-- `Database.create_fragment` (src/MOLTMUD_SERVER.py lines 235-244):
`INSERT INTO knowledge_fragments (agent_id, room_id, content, topics,
base_value, current_value) VALUES (?, 1, ?, ?, 1, 1)`; every column not in
the insert list takes its schema default — counters `0`, and, when the
two columns `ensure_schema` manages to add are present,
`freshness_score` `1.0` and `last_decay_check` `CURRENT_TIMESTAMP`.
`decay_rate_per_hour` exists in no reachable schema, hence `none`. -/
def create_fragment (db : DB) (now : ℚ) (agent_id newId : Nat)
    (content : String) : DB :=
  { db with fragments := db.fragments ++
      [{ id := newId, agent_id := agent_id, room_id := 1,
         content := content, base_value := 1, current_value := 1,
         purchase_count := 0, total_value_earned := 0,
         rating_sum := 0, rating_count := 0,
         freshness_score := some 1, last_decay_check := some now,
         decay_rate_per_hour := none,
         last_purchased_at := none }] }

/-- The value of the dict returned by a successful
`Database.purchase_fragment`. -/
structure PurchaseOk where
  fragment_id : Nat
  cost : Int
  new_influence : Int
deriving Repr, DecidableEq

/-- The dict returned by `Database.purchase_fragment` when it returns at
all: `{'success': False, 'error': msg}` or the success payload. -/
inductive PurchaseResult where
  | failure (error : String)
  | ok (r : PurchaseOk)
deriving Repr, DecidableEq

/-- `Database.purchase_fragment` (src/MOLTMUD_SERVER.py lines 259-319),
statement by statement.  Its first statement is

  `SELECT f.*, a_influence, a_seller_id
   FROM knowledge_fragments f JOIN agents a_influence ON f.agent_id = a_influence.id
   WHERE f.id = ?`

whose select list contains the bare identifiers `a_influence` and
`a_seller_id`; they are table aliases, not columns of either joined table,
so preparing the statement raises `OperationalError` on every call, for
every input.  The rest of the body is transcribed after that point and
contains three further slips, each modelled where it occurs: the
`self.get_agent_by_id` call (no such method is defined on `Database` or
anywhere in the repository), the seller-credit `UPDATE` naming the
nonexistent column `influence_earned`, and the ledger `INSERT` supplying
four bindings for five placeholders. -/
def purchase_fragment (db : DB) (fragment_id buyer_id : Nat) :
    Except PyError (DB × PurchaseResult) := do
  resolveColumns ["a_influence", "a_seller_id"]
    (reachableKnowledgeFragmentsColumns ++ agentsColumns)
  match db.fragments.find? (fun f => f.id == fragment_id) with
  | none => pure (db, .failure "Fragment not found")
  | some fragment => do
    let buyer : AgentRow ←
      .error (.attributeError
        "Database object has no attribute get_agent_by_id")
    let seller_id := fragment.agent_id
    let value := fragment.current_value
    if buyer_id == seller_id then
      pure (db, .failure "Cannot purchase your own fragment")
    else if buyer.influence < value then
      pure (db, .failure "Insufficient influence")
    else do
      let db1 : DB := { db with agents := db.agents.map (fun a =>
        if a.id == buyer_id then { a with influence := a.influence - value }
        else a) }
      resolveColumns ["influence", "influence_earned"] agentsColumns
      let db2 : DB := { db1 with agents := db1.agents.map (fun a =>
        if a.id == seller_id then { a with influence := a.influence + value }
        else a) }
      let db3 : DB := { db2 with fragments := db2.fragments.map (fun f =>
        if f.id == fragment_id then
          { f with purchase_count := f.purchase_count + 1,
                   total_value_earned := f.total_value_earned + value }
        else f) }
      .error (.programmingError
        "Incorrect number of bindings supplied: statement uses 5, 4 supplied")
      pure (db3, .ok { fragment_id := fragment_id, cost := value,
                       new_influence := buyer.influence - value })

/-- `Database.rate_fragment` (src/MOLTMUD_SERVER.py lines 321-347).  The
eligibility check `SELECT * FROM fragment_purchases WHERE fragment_id = ?
AND buyer_id = ? AND rating IS NULL` is valid SQL and returns `False`
(no eligible purchase) when it finds nothing.  When an eligible row does
exist, the next statement `UPDATE fragment_purchases SET rating = ?,
rated_at = CURRENT_TIMESTAMP WHERE fragment_id = ? AND buyer_id = ?`
names the column `rated_at`, which `fragment_purchases` does not have, so
it raises `OperationalError` before any write.  The transcription of the
never-reached remainder keeps the further behaviour of the source SQL:
the `UPDATE` has no `AND rating IS NULL` filter, and the schema `CHECK
(rating BETWEEN 1 AND 5)` would reject an out-of-range value with
`IntegrityError` on the rows it touches. -/
def rate_fragment (db : DB) (fragment_id buyer_id : Nat) (rating : Int) :
    Except PyError (DB × Bool) := do
  match db.purchases.find? (fun p =>
      p.fragment_id == fragment_id && p.buyer_id == buyer_id
        && p.rating == none) with
  | none => pure (db, false)
  | some _ => do
    resolveColumns ["rating", "rated_at"] fragmentPurchasesColumns
    if !(1 ≤ rating && rating ≤ 5) then
      .error (.integrityError "CHECK constraint failed: rating BETWEEN 1 AND 5")
    let db1 : DB := { db with purchases := db.purchases.map (fun p =>
      if p.fragment_id == fragment_id && p.buyer_id == buyer_id then
        { p with rating := some rating }
      else p) }
    let db2 : DB := { db1 with fragments := db1.fragments.map (fun f =>
      if f.id == fragment_id then
        { f with rating_count := f.rating_count + 1,
                 rating_sum := f.rating_sum + rating }
      else f) }
    pure (db2, true)

/-- The 5-tier rarity system of src/knowledge_system.py (`class Rarity`,
lines 75-116), in declaration order. -/
inductive Rarity where
  | common
  | uncommon
  | rare
  | epic
  | legendary
deriving Repr, DecidableEq

/-- `drop_rate_percent` of each `RaritySpec`
(src/knowledge_system.py lines 77-114). -/
def dropRatePercent : Rarity → ℚ
  | .common => 50
  | .uncommon => 30
  | .rare => 15
  | .epic => 4
  | .legendary => 1

/-- `value_multiplier` of each `RaritySpec`. -/
def valueMultiplier : Rarity → ℚ
  | .common => 1
  | .uncommon => 3/2
  | .rare => 5/2
  | .epic => 5
  | .legendary => 10

/-- The iteration order `for rarity in Rarity` (Python enum declaration
order). -/
def rarityOrder : List Rarity :=
  [.common, .uncommon, .rare, .epic, .legendary]

/-- The accumulation loop of `get_random_rarity`
(src/knowledge_system.py lines 124-139): walk the tiers accumulating
`drop_rate_percent` and return the first tier whose cumulative sum meets
or exceeds the roll; fall through to `Rarity.COMMON`. -/
def rarityWalk (roll : ℚ) : ℚ → List Rarity → Rarity
  | _, [] => .common
  | cumulative, r :: rest =>
    if roll ≤ cumulative + dropRatePercent r then r
    else rarityWalk roll (cumulative + dropRatePercent r) rest

/-- `get_random_rarity` applied to a drawn roll
(`roll = random.random() * 100`, a uniform value in `[0, 100)`): the walk
starts from `cumulative = 0.0`. -/
def get_random_rarity (roll : ℚ) : Rarity :=
  rarityWalk roll 0 rarityOrder

/-- A stored freshness value satisfies the `[0, 1]` invariant: either NULL
or a score between 0 and 1. -/
def scoreOk : Option ℚ → Prop
  | none => True
  | some s => 0 ≤ s ∧ s ≤ 1

instance (o : Option ℚ) : Decidable (scoreOk o) :=
  match o with
  | none => isTrue trivial
  | some s => inferInstanceAs (Decidable (0 ≤ s ∧ s ≤ 1))

/-- The spec invariant `0.0 ≤ freshness_score ≤ 1.0`, read over every
fragment row of the store. -/
def freshnessInv (db : DB) : Prop :=
  ∀ f ∈ db.fragments, scoreOk f.freshness_score

instance (db : DB) : Decidable (freshnessInv db) :=
  inferInstanceAs (Decidable (∀ f ∈ db.fragments, scoreOk f.freshness_score))

/-- Claim C4: for all `s ∈ [0,1]`, `h ≥ 0`, `r ≥ 0`,
`calculate_current_freshness` applied to a `last_check` and a `now` that
are `h` hours apart returns `clamp (s - h·r) 0 1`; and whenever the input
score is `≤ 0` the result is exactly `0`. -/
theorem freshness_clamp_formula (last now rate s h : ℚ)
    (helapsed : now - last = h * 3600) (hs0 : 0 ≤ s) (hs1 : s ≤ 1)
    (hh : 0 ≤ h) (hr : 0 ≤ rate) :
    calculate_current_freshness last now rate s
        = max 0 (min 1 (s - h * rate)) ∧
      ∀ s2 : ℚ, s2 ≤ 0 → calculate_current_freshness last now rate s2 = 0 := by
  constructor
  · unfold calculate_current_freshness
    split
    · rename_i hle
      have hs : s = 0 := le_antisymm hle hs0
      subst hs
      have hhr : 0 ≤ h * rate := mul_nonneg hh hr
      rw [min_eq_right (by linarith : (0:ℚ) - h * rate ≤ 1),
          max_eq_left (by linarith : (0:ℚ) - h * rate ≤ 0)]
    · dsimp only
      rw [helapsed]
      congr 2
      ring
  · intro s2 h2
    unfold calculate_current_freshness
    rw [if_pos h2]

/-- Witness for C4 at `last = 0`, `now = 7200` (two hours later),
`rate = 1/10`, `s = 1`: the theorem gives
`clamp (1 - 2·(1/10)) 0 1 = 4/5`. -/
theorem freshness_clamp_formula_witness :
    calculate_current_freshness 0 7200 (1/10) 1 = 4/5 := by
  have h := freshness_clamp_formula 0 7200 (1/10) 1 2 (by norm_num)
    (by norm_num) (by norm_num) (by norm_num) (by norm_num)
  rw [h.1]
  norm_num

/-- Claim C5 (the code contradicts it): with `current_score = 1/2`,
`decay_rate = 1/20` and a `now` twenty hours EARLIER than `last_check`
(`last_check = 72000` seconds, `now = 0`), the negative elapsed delta
makes `calculate_current_freshness` ADD `20 · (1/20) = 1` to the score,
and the upper clamp only caps the result at `1`, which strictly exceeds
the input score `1/2`.  The code has no guard zeroing out negative
deltas, so freshness self-repairs without an explicit refresh. -/
theorem freshness_negative_delta_inflates :
    calculate_current_freshness 72000 0 (1/20) (1/2) = 1 ∧
      (1:ℚ)/2 < calculate_current_freshness 72000 0 (1/20) (1/2) := by
  constructor <;> norm_num [calculate_current_freshness]

/-- Claim C8: the five drop rates sum to exactly `100`, and for every
draw `u ∈ [0, 100)` the accumulation walk of `get_random_rarity` returns
Common on `[0, 50]`, Uncommon on `(50, 80]`, Rare on `(80, 95]`, Epic on
`(95, 99]` and Legendary on `(99, 100)`. -/
theorem rarity_walk_characterization (u : ℚ) (h0 : 0 ≤ u) (h1 : u < 100) :
    (rarityOrder.map dropRatePercent).sum = 100 ∧
    get_random_rarity u =
      (if u ≤ 50 then Rarity.common
       else if u ≤ 80 then Rarity.uncommon
       else if u ≤ 95 then Rarity.rare
       else if u ≤ 99 then Rarity.epic
       else Rarity.legendary) := by
  refine ⟨by norm_num [rarityOrder, dropRatePercent], ?_⟩
  norm_num [get_random_rarity, rarityOrder, rarityWalk, dropRatePercent]
  split_ifs <;> first | rfl | (exfalso; linarith)

/-- Witness for C8 at the draw `u = 97`: the walk lands in the Epic band
`(95, 99]`. -/
theorem rarity_walk_characterization_witness :
    get_random_rarity 97 = Rarity.epic := by
  have h := rarity_walk_characterization 97 (by norm_num) (by norm_num)
  rw [h.2]
  norm_num

/-- A fragment row with a given id, owner, value and stored freshness;
counters zero and the remaining columns at their defaults. -/
def mkFragment (id agent_id : Nat) (current_value : Int) (fs : Option ℚ) :
    FragmentRow :=
  { id := id, agent_id := agent_id, room_id := 1, content := "c",
    base_value := 1, current_value := current_value, purchase_count := 0,
    total_value_earned := 0, rating_sum := 0, rating_count := 0,
    freshness_score := fs, last_decay_check := some 0,
    decay_rate_per_hour := some DEFAULT_DECAY_RATE_PER_HOUR,
    last_purchased_at := none }

/-- A store holding one fragment with a valid stored freshness of `1`. -/
def dbRefreshNeg : DB :=
  { agents := [], fragments := [mkFragment 1 2 5 (some 1)], purchases := [] }

/-- Claim C3 (the code contradicts it): the freshness-writing operations
cannot keep the `[0, 1]` invariant because, past creation's default
`1.0`, none of them can complete a write.  `ensure_schema` — hence
`FreshnessService.__init__` — raises on every construction, both from
the base schema and from the fullest reachable one (the third `ALTER`
passes its default as a bound parameter, a DDL syntax error, and
`decay_rate_per_hour` can never exist to satisfy its guard); against the
reachable schema `apply_decay` and `batch_update_freshness` raise at
their SELECT naming `decay_rate_per_hour`; and `refresh_fragment`, whose
own SQL would prepare, is only reachable through that crashed
constructor — and even granting the call, storing `MIN(1.0, -1) = -1`
breaks the invariant, since the SQL has no lower clamp: the claim's
"for every amount argument" fails on the write itself. -/
theorem freshness_writers_cannot_run :
    ensure_schema knowledgeFragmentsBaseColumns =
        .error (.operationalError "near \"?\": syntax error") ∧
      ensure_schema reachableKnowledgeFragmentsColumns =
        .error (.operationalError "near \"?\": syntax error") ∧
      apply_decay reachableKnowledgeFragmentsColumns dbRefreshNeg 0 1 =
        .error (.operationalError "no such column: decay_rate_per_hour") ∧
      batch_update_freshness reachableKnowledgeFragmentsColumns
          dbRefreshNeg 0 =
        .error (.operationalError "no such column: decay_rate_per_hour") ∧
      freshnessInv dbRefreshNeg ∧
      (match refresh_fragment reachableKnowledgeFragmentsColumns
          dbRefreshNeg 0 1 (-1) with
       | .ok (db2, hit) => hit = true ∧ ¬ freshnessInv db2
       | .error _ => False) := by
  refine ⟨rfl, rfl, rfl, rfl, by decide, ?_⟩
  exact ⟨rfl, by decide⟩

/-- A store whose only fragment has id 1, used to evaluate C10 at the
absent id 2. -/
def dbOnlyFragmentOne : DB :=
  { agents := [], fragments := [mkFragment 1 2 5 (some 1)], purchases := [] }

/-- Claim C10 (the code contradicts it): absence of the fragment is NOT
reported by the return value.  Against the schema the repository's
migrations can actually produce, `apply_decay`'s very first SELECT names
`decay_rate_per_hour` and raises `OperationalError` for every
`fragment_id` — present or absent — before the row is even looked up,
and `get_fragment_with_freshness` inherits the same exception.
`refresh_fragment`'s own statement prepares and would return `False`
with the store unchanged for the absent id, but it can never be invoked:
the service constructor raises in `ensure_schema` before any instance
exists. -/
theorem missing_fragment_raises :
    apply_decay reachableKnowledgeFragmentsColumns dbOnlyFragmentOne 5 2 =
        .error (.operationalError "no such column: decay_rate_per_hour") ∧
      get_fragment_with_freshness reachableKnowledgeFragmentsColumns
          dbOnlyFragmentOne 5 2 =
        .error (.operationalError "no such column: decay_rate_per_hour") ∧
      refresh_fragment reachableKnowledgeFragmentsColumns
          dbOnlyFragmentOne 5 2 1 =
        .ok (dbOnlyFragmentOne, false) :=
  ⟨rfl, rfl, rfl⟩

/-- The spec's purchase scenario: buyer agent 1 with influence 10, seller
agent 2, fragment 1 owned by agent 2 with `current_value` 5. -/
def dbPurchaseScenario : DB :=
  { agents := [{ id := 1, influence := 10 }, { id := 2, influence := 0 }],
    fragments := [mkFragment 1 2 5 (some 1)],
    purchases := [] }

/-- Claim C1 (the code contradicts it): on the spec's own scenario —
buyer balance 10, distinct seller, fragment `current_value` 5 — the
purchase does not succeed: the very first statement of
`purchase_fragment` selects the bare table aliases `a_influence` and
`a_seller_id` as columns, which resolve against no table, so the call
raises `sqlite3.OperationalError` instead of debiting, crediting,
bumping counters, appending a ledger row and returning the new balance.
(Behind that slip sit three more, each transcribed in the model:
`self.get_agent_by_id` is undefined, `agents` has no `influence_earned`
column, and the ledger `INSERT` binds 4 values to 5 placeholders.) -/
theorem purchase_scenario_raises :
    purchase_fragment dbPurchaseScenario 1 1 =
      .error (.operationalError "no such column: a_influence") := by
  rfl

/-- A store exercising all three claimed failure paths: fragment 1 is
owned by agent 2 with `current_value` 5; agent 3 holds influence 3 only;
fragment 42 does not exist. -/
def dbFailurePaths : DB :=
  { agents := [{ id := 1, influence := 10 }, { id := 2, influence := 0 },
               { id := 3, influence := 3 }],
    fragments := [mkFragment 1 2 5 (some 1)],
    purchases := [] }

/-- Claim C2 (the code contradicts it): none of the three structured
failure outcomes is ever produced.  Because the initial SELECT of
`purchase_fragment` fails name resolution at prepare time, the call
raises `OperationalError` on every input — for the absent fragment 42
(where the claim expects `FragmentNotFound`), for the owner agent 2
buying its own fragment (`SelfPurchase`), and for agent 3 whose balance
3 is below the value 5 (`InsufficientFunds`).  No mutation occurs, but
only because nothing at all executes. -/
theorem purchase_failure_paths_raise :
    purchase_fragment dbFailurePaths 42 1 =
        .error (.operationalError "no such column: a_influence") ∧
      purchase_fragment dbFailurePaths 1 2 =
        .error (.operationalError "no such column: a_influence") ∧
      purchase_fragment dbFailurePaths 1 3 =
        .error (.operationalError "no such column: a_influence") :=
  ⟨rfl, rfl, rfl⟩

/-- A store holding one unrated Purchase ledger row: fragment 1 bought by
agent 2 from agent 3 for 5. -/
def dbUnratedPurchase : DB :=
  { agents := [{ id := 2, influence := 5 }, { id := 3, influence := 5 }],
    fragments := [mkFragment 1 3 5 (some 1)],
    purchases := [{ fragment_id := 1, buyer_id := 2, seller_id := 3,
                    influence_amount := 5, fragment_value_at_purchase := 5,
                    rating := none }] }

/-- Claim C6 (the code contradicts it): the successful first rating the
claim presupposes is impossible.  With an eligible unrated Purchase row
present, `rate_fragment` passes the eligibility check and then executes
`UPDATE fragment_purchases SET rating = ?, rated_at = ...`, but
`fragment_purchases` has no `rated_at` column, so the call raises
`OperationalError` instead of recording the rating — hence no
null→(1..5) transition ever completes and the claimed second-call
behaviour is unreachable.  The never-purchased-buyer half does hold: a
buyer (id 99) with no purchase receives the no-eligible-purchase outcome
(`False`) with the store untouched. -/
theorem first_rating_raises :
    rate_fragment dbUnratedPurchase 1 2 4 =
        .error (.operationalError "no such column: rated_at") ∧
      rate_fragment dbUnratedPurchase 1 99 4 = .ok (dbUnratedPurchase, false) :=
  ⟨rfl, rfl⟩

/-- A second unrated-Purchase store (fragment 5 bought by agent 6 from
agent 7) for the invalid-rating claim. -/
def dbUnratedPurchaseInvalid : DB :=
  { agents := [{ id := 6, influence := 5 }, { id := 7, influence := 5 }],
    fragments := [mkFragment 5 7 5 (some 1)],
    purchases := [{ fragment_id := 5, buyer_id := 6, seller_id := 7,
                    influence_amount := 5, fragment_value_at_purchase := 5,
                    rating := none }] }

/-- Claim C7 (the code contradicts it): there is no structured
`InvalidRating` outcome anywhere in `rate_fragment` — it performs no
range check on `rating`.  With an eligible purchase, the out-of-range
call `rate_fragment(5, 6, 7)` raises `OperationalError` (the `rated_at`
slip fires before the schema `CHECK (rating BETWEEN 1 AND 5)`, which
itself would raise `IntegrityError`, also not a structured outcome);
with no eligible purchase the same out-of-range rating returns the
no-eligible-purchase outcome (`False`), not `InvalidRating`. -/
theorem invalid_rating_not_structured :
    rate_fragment dbUnratedPurchaseInvalid 5 6 7 =
        .error (.operationalError "no such column: rated_at") ∧
      rate_fragment dbUnratedPurchaseInvalid 5 77 7 =
        .ok (dbUnratedPurchaseInvalid, false) :=
  ⟨rfl, rfl⟩
